import Mathlib

/-!
Shallow embedding of the dinero.js core slice: the generic calculator
contract, the scale normalizer, the comparison operators (`equal`,
`greaterThan`, `lessThan`, `isNegative`) and the formatting bridge
(`toFormat`), together with theorems settling the claims about them.

Definitions whose sources are present (`toFormat.ts`, `isNegative.ts`) are
translated directly; the remaining core functions (the `lessThan` utility,
`normalizeScale`, `equal`, `greaterThan`, `lessThan`, `toUnit`, the
calculators) are absent from the provided sources and are modelled from the
specification, as marked in their doc comments.
-/

set_option autoImplicit false

namespace DineroJS

/-- Currency descriptor `{ code, base, exponent }` over the generic numeric
type `α` (the data model's `N`). -/
structure Currency (α : Type) where
  code : String
  base : α
  exponent : α
  deriving Repr, DecidableEq

/-- Monetary object `{ amount, currency, scale }` over the generic numeric
type `α`. -/
structure Dinero (α : Type) where
  amount : α
  currency : Currency α
  scale : α
  deriving Repr, DecidableEq

/-- Read-only snapshot accessor: the source's `dineroObject.toJSON()`
returns the plain `{ amount, currency, scale }` record, which in this
embedding is the monetary object itself. -/
def Dinero.toJSON {α : Type} (d : Dinero α) : Dinero α := d

/-- Calculator capability table: the fixed set of numeric primitives every
operation delegates to. `compare` returns an integer in `{-1, 0, 1}`;
`toNumber` is the best-effort conversion to a platform number, modelled as a
rational. -/
structure Calculator (α : Type) where
  zero : α
  increment : α → α
  decrement : α → α
  compare : α → α → Int
  add : α → α → α
  subtract : α → α → α
  multiply : α → α → α
  integerDivide : α → α → α
  modulo : α → α → α
  power : α → α → α
  toNumber : α → Rat

variable {α : Type} {R : Type}

/-- Modelled from the spec: the `lessThan` comparison utility from the core
`utils` module (imported by `isNegative.ts` but absent from the sources).
Per §4.4 it answers whether `compare(a, b)` is strictly negative. -/
def Utils.lessThan (cal : Calculator α) (a b : α) : Bool :=
  cal.compare a b < 0

/-- Translated from `src/packages/core/src/api/isNegative.ts`: reads the
amount from the object's `toJSON` snapshot and compares it against the
calculator's zero through the `lessThan` utility. -/
def isNegative (cal : Calculator α) (dineroObject : Dinero α) : Bool :=
  Utils.lessThan cal (dineroObject.toJSON).amount cal.zero

/-- The currency-mismatch error message, as pinned down by the test
snapshots in the sources. -/
def UNEQUAL_CURRENCIES_MESSAGE : String :=
  "[Dinero.js] Objects must have the same currency."

/-- Modelled from the spec: the scale normalizer (§4.2), absent from the
sources. Given `d1` at scale `s1` and `d2` at scale `s2`, let
`s = max(s1, s2)`; the object whose scale is smaller has its amount
multiplied by `base ^ (s - min(s1, s2))` computed via the calculator's
`power` and `multiply` primitives, and the object already at scale `s` is
unchanged; when `s1 == s2` both amounts pass through untouched. -/
def normalizeScale (cal : Calculator α) (d1 d2 : Dinero α) : α × α :=
  let j1 := d1.toJSON
  let j2 := d2.toJSON
  let c := cal.compare j1.scale j2.scale
  if c = 0 then
    (j1.amount, j2.amount)
  else if c < 0 then
    (cal.multiply j1.amount
        (cal.power j1.currency.base (cal.subtract j2.scale j1.scale)),
      j2.amount)
  else
    (j1.amount,
      cal.multiply j2.amount
        (cal.power j2.currency.base (cal.subtract j1.scale j2.scale)))

/-- Modelled from the spec: `equal` (§4.4), absent from the sources.
Returns `false` immediately when the currency codes differ; otherwise
normalizes both amounts to the common scale and tests whether `compare`
yields `0`. -/
def equal (cal : Calculator α) (d1 d2 : Dinero α) : Bool :=
  if (d1.toJSON).currency.code = (d2.toJSON).currency.code then
    let n := normalizeScale cal d1 d2
    cal.compare n.1 n.2 = 0
  else
    false

/-- Modelled from the spec: `greaterThan` (§4.4), absent from the sources.
Raises the currency-mismatch fatal error when the codes differ, before any
normalization; otherwise normalizes to the common scale and tests whether
`compare` is strictly positive. -/
def greaterThan (cal : Calculator α) (d1 d2 : Dinero α) :
    Except String Bool :=
  if (d1.toJSON).currency.code = (d2.toJSON).currency.code then
    let n := normalizeScale cal d1 d2
    Except.ok (decide (0 < cal.compare n.1 n.2))
  else
    Except.error UNEQUAL_CURRENCIES_MESSAGE

/-- Modelled from the spec: `lessThan` on monetary objects (§4.4), absent
from the sources. Same guard as `greaterThan`, testing whether `compare` is
strictly negative. -/
def lessThan (cal : Calculator α) (d1 d2 : Dinero α) :
    Except String Bool :=
  if (d1.toJSON).currency.code = (d2.toJSON).currency.code then
    let n := normalizeScale cal d1 d2
    Except.ok (decide (cal.compare n.1 n.2 < 0))
  else
    Except.error UNEQUAL_CURRENCIES_MESSAGE

/-- Modelled from the spec: `toUnit` (§4.5), absent from the sources.
Converts the internal integer amount at the object's scale into a
decimal-unit value truncated to the requested number of fractional digits,
going through the calculator's `toNumber` and `power` primitives; this is
the lossy, display-oriented conversion. -/
def toUnit (cal : Calculator α) (dineroObject : Dinero α) (digits : α) :
    Rat :=
  let j := dineroObject.toJSON
  let unitAmount :=
    cal.toNumber j.amount / cal.toNumber (cal.power j.currency.base j.scale)
  let factor : Rat := 10 ^ (cal.toNumber digits).floor.toNat
  (unitAmount * factor).floor / factor

/-- Payload handed to the caller-supplied transformer by `toFormat`:
`{ amount, currency, dineroObject }`, with `amount` a platform number. -/
structure TransformerOptions (α : Type) where
  amount : Rat
  currency : Currency α
  dineroObject : Dinero α

/-- Translated from `src/packages/core/src/api/toFormat.ts`: reads
`currency` and `scale` from the object's `toJSON` snapshot, computes the
unit-scale amount via `toUnit` with the object's own scale as the digit
count, and returns the transformer applied to
`{ amount, currency, dineroObject }`. -/
def toFormat (cal : Calculator α) (dineroObject : Dinero α)
    (transformer : TransformerOptions α → R) : R :=
  let j := dineroObject.toJSON
  let currency := j.currency
  let scale := j.scale
  let amount := toUnit cal dineroObject scale
  transformer
    { amount := amount, currency := currency, dineroObject := dineroObject }

/-- Three-way comparison on the integers: the behaviour every lawful
calculator's `compare` must exhibit on the integer values its amounts
denote. -/
def intCompare (a b : Int) : Int :=
  if a < b then -1 else if b < a then 1 else 0

/-- The canonical exact integer calculator: the shallow embedding of the
arbitrary-precision integer backend (and of the native-number backend on
its exactly representable range). -/
def intCalculator : Calculator Int where
  zero := 0
  increment v := v + 1
  decrement v := v - 1
  compare := intCompare
  add a b := a + b
  subtract a b := a - b
  multiply a b := a * b
  integerDivide a b := Int.tdiv a b
  modulo a b := Int.tmod a b
  power a b := a ^ b.toNat
  toNumber v := (v : Rat)

/-- The USD currency descriptor used throughout the tests: code `"USD"`,
base 10, exponent 2. -/
def USD : Currency Int := { code := "USD", base := 10, exponent := 2 }

/-- The EUR currency descriptor used throughout the tests: code `"EUR"`,
base 10, exponent 2. -/
def EUR : Currency Int := { code := "EUR", base := 10, exponent := 2 }

/-- Re-expression of a monetary object at scale `s + k`: the amount is
multiplied by `base ^ k` (§8, scale invariance). -/
def reexpress (d : Dinero Int) (k : Nat) : Dinero Int :=
  { amount := d.amount * d.currency.base ^ k
    currency := d.currency
    scale := d.scale + (k : Int) }

/-- Image of a currency descriptor under an interpretation of a backend's
amounts as integers. -/
def mapCurrency (φ : α → Int) (c : Currency α) : Currency Int :=
  { code := c.code, base := φ c.base, exponent := φ c.exponent }

/-- Image of a monetary object under an interpretation of a backend's
amounts as integers. -/
def mapDinero (φ : α → Int) (d : Dinero α) : Dinero Int :=
  { amount := φ d.amount
    currency := mapCurrency φ d.currency
    scale := φ d.scale }

/-- A calculator backend faithfully represents the integers through the
interpretation `φ` when the primitives the comparison operators consume
commute with `φ`, per the calculator contract (§4.1). This captures the
native number backend on its exactly representable range, the bigint
backend, and a Big.js backend on integer values. -/
structure Represents (cal : Calculator α) (φ : α → Int) : Prop where
  zero : φ cal.zero = 0
  compare : ∀ a b, cal.compare a b = intCompare (φ a) (φ b)
  multiply : ∀ a b, φ (cal.multiply a b) = φ a * φ b
  subtract : ∀ a b, φ (cal.subtract a b) = φ a - φ b
  power : ∀ a b, φ (cal.power a b) = (φ a) ^ (φ b).toNat

/-- A big-number amount object: an opaque wrapper around an exact integer
value, standing in for a third-party arbitrary-precision type such as a
Big.js value holding an integer. -/
structure BigAmount where
  val : Int
  deriving Repr, DecidableEq

/-- A calculator backend for the wrapped big-number type, mirroring the
`Calculator<Big>` example from the documentation: every primitive works on
the wrapped exact integer. -/
def bigCalculator : Calculator BigAmount where
  zero := ⟨0⟩
  increment v := ⟨v.val + 1⟩
  decrement v := ⟨v.val - 1⟩
  compare a b := intCompare a.val b.val
  add a b := ⟨a.val + b.val⟩
  subtract a b := ⟨a.val - b.val⟩
  multiply a b := ⟨a.val * b.val⟩
  integerDivide a b := ⟨Int.tdiv a.val b.val⟩
  modulo a b := ⟨Int.tmod a.val b.val⟩
  power a b := ⟨a.val ^ b.val.toNat⟩
  toNumber v := (v.val : Rat)

theorem intCompare_eq_zero_iff {a b : Int} : intCompare a b = 0 ↔ a = b := by
  unfold intCompare
  split_ifs <;> simp <;> omega

theorem intCompare_neg_iff {a b : Int} : intCompare a b < 0 ↔ a < b := by
  unfold intCompare
  split_ifs <;> simp <;> omega

theorem intCompare_pos_iff {a b : Int} : 0 < intCompare a b ↔ b < a := by
  unfold intCompare
  split_ifs <;> simp <;> omega

theorem intCompare_swap (a b : Int) : intCompare a b = -intCompare b a := by
  unfold intCompare
  split_ifs <;> omega

theorem intCompare_mul_right {a b c : Int} (hc : 0 < c) :
    intCompare (a * c) (b * c) = intCompare a b := by
  simp only [intCompare, mul_lt_mul_right hc]

/-- Closed form of the normalizer over the integer calculator: both amounts
are raised exactly to the maximum of the two scales, each through its own
currency base. -/
theorem normalizeScale_int (d e : Dinero Int) :
    normalizeScale intCalculator d e =
      (d.amount * d.currency.base ^ (max d.scale e.scale - d.scale).toNat,
        e.amount * e.currency.base ^ (max d.scale e.scale - e.scale).toNat) := by
  rcases lt_trichotomy d.scale e.scale with h | h | h
  · have hc : intCompare d.scale e.scale = -1 := by
      unfold intCompare; split_ifs <;> omega
    simp [normalizeScale, Dinero.toJSON, intCalculator, hc,
      max_eq_right h.le, sub_self, pow_zero, mul_one]
  · have hc : intCompare d.scale e.scale = 0 := by
      unfold intCompare; split_ifs <;> omega
    simp [normalizeScale, Dinero.toJSON, intCalculator, hc, h,
      sub_self, pow_zero, mul_one]
  · have hc : intCompare d.scale e.scale = 1 := by
      unfold intCompare; split_ifs <;> omega
    simp [normalizeScale, Dinero.toJSON, intCalculator, hc,
      max_eq_left h.le, sub_self, pow_zero, mul_one]

theorem intCalculator_compare (a b : Int) :
    intCalculator.compare a b = intCompare a b := rfl

theorem equal_of_code_eq {α : Type} (cal : Calculator α) (d1 d2 : Dinero α)
    (h : d1.currency.code = d2.currency.code) :
    equal cal d1 d2 =
      decide (cal.compare (normalizeScale cal d1 d2).1
        (normalizeScale cal d1 d2).2 = 0) := by
  simp [equal, Dinero.toJSON, h]

theorem greaterThan_of_code_eq {α : Type} (cal : Calculator α)
    (d1 d2 : Dinero α) (h : d1.currency.code = d2.currency.code) :
    greaterThan cal d1 d2 =
      Except.ok (decide (0 < cal.compare (normalizeScale cal d1 d2).1
        (normalizeScale cal d1 d2).2)) := by
  simp [greaterThan, Dinero.toJSON, h]

theorem lessThan_of_code_eq {α : Type} (cal : Calculator α)
    (d1 d2 : Dinero α) (h : d1.currency.code = d2.currency.code) :
    lessThan cal d1 d2 =
      Except.ok (decide (cal.compare (normalizeScale cal d1 d2).1
        (normalizeScale cal d1 d2).2 < 0)) := by
  simp [lessThan, Dinero.toJSON, h]

/-- C1: Scale normalization is exact and directed to the maximum scale:
over the integer calculator, equal scales pass both amounts through
unchanged; when `d1`'s scale is smaller, its amount is replaced by
`multiply(amount, power(base, s2 - s1))` through the calculator primitives
while `d2`'s amount is untouched, and symmetrically when `d2`'s scale is
smaller; consequently `equal({500, USD}, {5000, USD, scale 3})` is `true`
and `equal({500, USD}, {500, USD, scale 3})` is `false`. -/
theorem normalization_directed_to_max_scale :
    (∀ d1 d2 : Dinero Int,
      (d1.scale = d2.scale →
        normalizeScale intCalculator d1 d2 = (d1.amount, d2.amount)) ∧
      (d1.scale < d2.scale →
        normalizeScale intCalculator d1 d2 =
          (intCalculator.multiply d1.amount
              (intCalculator.power d1.currency.base
                (intCalculator.subtract d2.scale d1.scale)),
            d2.amount)) ∧
      (d2.scale < d1.scale →
        normalizeScale intCalculator d1 d2 =
          (d1.amount,
            intCalculator.multiply d2.amount
              (intCalculator.power d2.currency.base
                (intCalculator.subtract d1.scale d2.scale))))) ∧
    equal intCalculator ⟨500, USD, 2⟩ ⟨5000, USD, 3⟩ = true ∧
    equal intCalculator ⟨500, USD, 2⟩ ⟨500, USD, 3⟩ = false := by
  refine ⟨fun d1 d2 => ⟨?_, ?_, ?_⟩, by decide, by decide⟩
  · intro h
    rw [normalizeScale_int]
    simp [h, sub_self, pow_zero, mul_one]
  · intro h
    rw [normalizeScale_int]
    simp [intCalculator, max_eq_right h.le, sub_self, pow_zero, mul_one]
  · intro h
    rw [normalizeScale_int]
    simp [intCalculator, max_eq_left h.le, sub_self, pow_zero, mul_one]

theorem normalization_directed_to_max_scale_witness :
    normalizeScale intCalculator ⟨500, USD, 2⟩ ⟨5000, USD, 3⟩ =
      (intCalculator.multiply 500
          (intCalculator.power 10 (intCalculator.subtract 3 2)),
        5000) :=
  (normalization_directed_to_max_scale.1 ⟨500, USD, 2⟩ ⟨5000, USD, 3⟩).2.1
    (by decide)

/-- C2: for every calculator backend and every pair of objects whose
currency codes differ, `greaterThan` and `lessThan` raise the designated
currency-mismatch fatal error, regardless of amounts and scales; the guard
fires before normalization, so the outcome does not depend on the
calculator's arithmetic primitives at all. -/
theorem ordering_raises_on_currency_mismatch {α : Type}
    (cal : Calculator α) (d1 d2 : Dinero α)
    (h : d1.currency.code ≠ d2.currency.code) :
    greaterThan cal d1 d2 = Except.error UNEQUAL_CURRENCIES_MESSAGE ∧
    lessThan cal d1 d2 = Except.error UNEQUAL_CURRENCIES_MESSAGE := by
  constructor <;> simp [greaterThan, lessThan, Dinero.toJSON, h]

theorem ordering_raises_on_currency_mismatch_witness :
    greaterThan intCalculator ⟨800, USD, 2⟩ ⟨500, EUR, 2⟩ =
        Except.error UNEQUAL_CURRENCIES_MESSAGE ∧
    lessThan intCalculator ⟨800, USD, 2⟩ ⟨500, EUR, 2⟩ =
        Except.error UNEQUAL_CURRENCIES_MESSAGE :=
  ordering_raises_on_currency_mismatch intCalculator
    ⟨800, USD, 2⟩ ⟨500, EUR, 2⟩ (by decide)

/-- C3: `equal` is a total function that never raises on currency
mismatch: differing codes give `false` immediately, and for same-code pairs
it returns `true` exactly when the calculator's `compare` on the normalized
amounts yields `0`. -/
theorem equal_is_total_on_currency_mismatch {α : Type}
    (cal : Calculator α) (d1 d2 : Dinero α) :
    (d1.currency.code ≠ d2.currency.code → equal cal d1 d2 = false) ∧
    (d1.currency.code = d2.currency.code →
      (equal cal d1 d2 = true ↔
        cal.compare (normalizeScale cal d1 d2).1
          (normalizeScale cal d1 d2).2 = 0)) := by
  constructor
  · intro h
    simp [equal, Dinero.toJSON, h]
  · intro h
    rw [equal_of_code_eq cal d1 d2 h]
    simp

theorem equal_is_total_on_currency_mismatch_witness :
    equal intCalculator ⟨500, USD, 2⟩ ⟨500, EUR, 2⟩ = false ∧
    equal intCalculator ⟨500, USD, 2⟩ ⟨500, USD, 2⟩ = true :=
  ⟨(equal_is_total_on_currency_mismatch intCalculator
      ⟨500, USD, 2⟩ ⟨500, EUR, 2⟩).1 (by decide),
    ((equal_is_total_on_currency_mismatch intCalculator
      ⟨500, USD, 2⟩ ⟨500, USD, 2⟩).2 rfl).mpr (by decide)⟩

/-- C5: `isNegative(d)` is true exactly when the calculator's `compare` of
`d`'s amount against `zero()` is strictly negative, independently of `d`'s
scale and currency; in particular it is `true` on amount `-1` and `false`
on amount `0`. -/
theorem isNegative_iff_amount_neg :
    (∀ d : Dinero Int,
      (isNegative intCalculator d = true ↔
        intCalculator.compare (d.toJSON).amount intCalculator.zero < 0)) ∧
    (∀ (a : Int) (c c' : Currency Int) (s s' : Int),
      isNegative intCalculator ⟨a, c, s⟩ = isNegative intCalculator ⟨a, c', s'⟩) ∧
    isNegative intCalculator ⟨-1, USD, 2⟩ = true ∧
    isNegative intCalculator ⟨0, USD, 2⟩ = false := by
  refine ⟨fun d => ?_, fun a c c' s s' => rfl, by decide, by decide⟩
  simp [isNegative, Utils.lessThan, Dinero.toJSON]

/-- C7: `toFormat(d, transformer)` computes the unit-scale amount by
calling `toUnit` on `d` with `d`'s own scale (read from the `toJSON`
snapshot) as the digit count, and returns exactly the transformer applied
to the payload `{ amount, currency, dineroObject }` — no other computation
touches the result. -/
theorem toFormat_applies_transformer_to_toUnit_payload {α R : Type}
    (cal : Calculator α) (d : Dinero α)
    (transformer : TransformerOptions α → R) :
    toFormat cal d transformer =
      transformer
        { amount := toUnit cal d (d.toJSON).scale
          currency := (d.toJSON).currency
          dineroObject := d } := rfl

/-- C9: `isNegative` is total and never raises the currency-mismatch
error: it is unary, reads only the amount from the snapshot — so its value
is unchanged under any change of currency or scale — and always returns a
boolean. -/
theorem isNegative_is_total_and_unary {α : Type}
    (cal : Calculator α) (d : Dinero α) :
    (isNegative cal d = Utils.lessThan cal (d.toJSON).amount cal.zero) ∧
    (∀ (c' : Currency α) (s' : α),
      isNegative cal { amount := d.amount, currency := c', scale := s' } =
        isNegative cal d) ∧
    (isNegative cal d = true ∨ isNegative cal d = false) := by
  refine ⟨rfl, fun c' s' => rfl, ?_⟩
  cases h : isNegative cal d
  · exact Or.inr rfl
  · exact Or.inl rfl

/-- C4: trichotomy — for every pair of same-currency objects, exactly one
of `greaterThan`, `equal`, `lessThan` returns `true` (and the other two
return `false` without raising). -/
theorem same_currency_trichotomy (d1 d2 : Dinero Int)
    (h : d1.currency.code = d2.currency.code) :
    (greaterThan intCalculator d1 d2 = Except.ok true ∧
      equal intCalculator d1 d2 = false ∧
      lessThan intCalculator d1 d2 = Except.ok false) ∨
    (greaterThan intCalculator d1 d2 = Except.ok false ∧
      equal intCalculator d1 d2 = true ∧
      lessThan intCalculator d1 d2 = Except.ok false) ∨
    (greaterThan intCalculator d1 d2 = Except.ok false ∧
      equal intCalculator d1 d2 = false ∧
      lessThan intCalculator d1 d2 = Except.ok true) := by
  rw [greaterThan_of_code_eq intCalculator d1 d2 h,
    equal_of_code_eq intCalculator d1 d2 h,
    lessThan_of_code_eq intCalculator d1 d2 h]
  rcases lt_trichotomy (normalizeScale intCalculator d1 d2).1
      (normalizeScale intCalculator d1 d2).2 with hx | hx | hx
  · have hc : intCalculator.compare (normalizeScale intCalculator d1 d2).1
        (normalizeScale intCalculator d1 d2).2 = -1 := by
      show intCompare _ _ = -1
      unfold intCompare
      split_ifs <;> omega
    exact Or.inr (Or.inr (by simp [hc]))
  · have hc : intCalculator.compare (normalizeScale intCalculator d1 d2).1
        (normalizeScale intCalculator d1 d2).2 = 0 := by
      show intCompare _ _ = 0
      unfold intCompare
      split_ifs <;> omega
    exact Or.inr (Or.inl (by simp [hc]))
  · have hc : intCalculator.compare (normalizeScale intCalculator d1 d2).1
        (normalizeScale intCalculator d1 d2).2 = 1 := by
      show intCompare _ _ = 1
      unfold intCompare
      split_ifs <;> omega
    exact Or.inl (by simp [hc])

theorem same_currency_trichotomy_witness :
    (greaterThan intCalculator ⟨800, USD, 2⟩ ⟨500, USD, 2⟩ = Except.ok true ∧
      equal intCalculator ⟨800, USD, 2⟩ ⟨500, USD, 2⟩ = false ∧
      lessThan intCalculator ⟨800, USD, 2⟩ ⟨500, USD, 2⟩ = Except.ok false) ∨
    (greaterThan intCalculator ⟨800, USD, 2⟩ ⟨500, USD, 2⟩ = Except.ok false ∧
      equal intCalculator ⟨800, USD, 2⟩ ⟨500, USD, 2⟩ = true ∧
      lessThan intCalculator ⟨800, USD, 2⟩ ⟨500, USD, 2⟩ = Except.ok false) ∨
    (greaterThan intCalculator ⟨800, USD, 2⟩ ⟨500, USD, 2⟩ = Except.ok false ∧
      equal intCalculator ⟨800, USD, 2⟩ ⟨500, USD, 2⟩ = false ∧
      lessThan intCalculator ⟨800, USD, 2⟩ ⟨500, USD, 2⟩ = Except.ok true) :=
  same_currency_trichotomy ⟨800, USD, 2⟩ ⟨500, USD, 2⟩ rfl

theorem cmp_normalizeScale_reexpress (d e : Dinero Int) (k : Nat)
    (hb : 0 < d.currency.base) (hbe : e.currency.base = d.currency.base) :
    intCompare (normalizeScale intCalculator (reexpress d k) e).1
        (normalizeScale intCalculator (reexpress d k) e).2 =
      intCompare (normalizeScale intCalculator d e).1
        (normalizeScale intCalculator d e).2 := by
  have key : ∀ (a c b : Int), 0 < b → ∀ (E1 E2 F1 F2 J m : Nat),
      m + E1 = F1 + J → E2 = F2 + J →
      intCompare (a * b ^ m * b ^ E1) (c * b ^ E2) =
        intCompare (a * b ^ F1) (c * b ^ F2) := by
    intro a c b hb E1 E2 F1 F2 J m h1 h2
    rw [mul_assoc, ← pow_add, h1, h2, pow_add, pow_add, ← mul_assoc,
      ← mul_assoc]
    exact intCompare_mul_right (pow_pos hb J)
  rw [normalizeScale_int, normalizeScale_int]
  simp only [reexpress, hbe]
  exact key d.amount e.amount d.currency.base hb _ _ _ _
    ((max (d.scale + (k : Int)) e.scale - max d.scale e.scale).toNat) k
    (by omega) (by omega)

theorem cmp_normalizeScale_swap (d e : Dinero Int) :
    intCompare (normalizeScale intCalculator e d).1
        (normalizeScale intCalculator e d).2 =
      -intCompare (normalizeScale intCalculator d e).1
        (normalizeScale intCalculator d e).2 := by
  rw [normalizeScale_int, normalizeScale_int, max_comm e.scale d.scale]
  exact intCompare_swap _ _

/-- C6: scale invariance — re-expressing `d` at scale `s + k` (amount
multiplied by `base ^ k`) changes the result of none of `equal`,
`greaterThan`, `lessThan` (in either argument position) or `isNegative`
against any other monetary object, given the data-model well-formedness of
the currency descriptors: the base is a positive radix and same-code
currencies carry the same base. -/
theorem scale_invariance (d e : Dinero Int) (k : Nat)
    (hb : 0 < d.currency.base)
    (hbe : d.currency.code = e.currency.code →
      e.currency.base = d.currency.base) :
    equal intCalculator (reexpress d k) e = equal intCalculator d e ∧
    equal intCalculator e (reexpress d k) = equal intCalculator e d ∧
    greaterThan intCalculator (reexpress d k) e =
      greaterThan intCalculator d e ∧
    greaterThan intCalculator e (reexpress d k) =
      greaterThan intCalculator e d ∧
    lessThan intCalculator (reexpress d k) e = lessThan intCalculator d e ∧
    lessThan intCalculator e (reexpress d k) = lessThan intCalculator e d ∧
    isNegative intCalculator (reexpress d k) = isNegative intCalculator d := by
  have hneg : isNegative intCalculator (reexpress d k) =
      isNegative intCalculator d := by
    simp only [isNegative, Utils.lessThan, Dinero.toJSON, reexpress]
    have hz : intCalculator.compare (d.amount * d.currency.base ^ k)
        intCalculator.zero = intCalculator.compare d.amount
        intCalculator.zero := by
      show intCompare (d.amount * d.currency.base ^ k) 0 =
        intCompare d.amount 0
      have h := intCompare_mul_right (a := d.amount) (b := 0)
        (pow_pos hb k)
      simpa using h
    simp only [hz]
  have hcode1 : (reexpress d k).currency.code = d.currency.code := rfl
  by_cases hcode : d.currency.code = e.currency.code
  · have hcmp := cmp_normalizeScale_reexpress d e k hb (hbe hcode)
    have hcmp2 : intCompare (normalizeScale intCalculator e (reexpress d k)).1
        (normalizeScale intCalculator e (reexpress d k)).2 =
        intCompare (normalizeScale intCalculator e d).1
          (normalizeScale intCalculator e d).2 := by
      rw [cmp_normalizeScale_swap (reexpress d k) e, hcmp,
        ← cmp_normalizeScale_swap d e]
    have hra : (reexpress d k).currency.code = e.currency.code := hcode
    have hrb : e.currency.code = (reexpress d k).currency.code := hcode.symm
    refine ⟨?_, ?_, ?_, ?_, ?_, ?_, hneg⟩
    · rw [equal_of_code_eq intCalculator (reexpress d k) e hra,
        equal_of_code_eq intCalculator d e hcode]
      simp only [intCalculator_compare, hcmp]
    · rw [equal_of_code_eq intCalculator e (reexpress d k) hrb,
        equal_of_code_eq intCalculator e d hcode.symm]
      simp only [intCalculator_compare, hcmp2]
    · rw [greaterThan_of_code_eq intCalculator (reexpress d k) e hra,
        greaterThan_of_code_eq intCalculator d e hcode]
      simp only [intCalculator_compare, hcmp]
    · rw [greaterThan_of_code_eq intCalculator e (reexpress d k) hrb,
        greaterThan_of_code_eq intCalculator e d hcode.symm]
      simp only [intCalculator_compare, hcmp2]
    · rw [lessThan_of_code_eq intCalculator (reexpress d k) e hra,
        lessThan_of_code_eq intCalculator d e hcode]
      simp only [intCalculator_compare, hcmp]
    · rw [lessThan_of_code_eq intCalculator e (reexpress d k) hrb,
        lessThan_of_code_eq intCalculator e d hcode.symm]
      simp only [intCalculator_compare, hcmp2]
  · have hra : (reexpress d k).currency.code ≠ e.currency.code := hcode
    have hrb : e.currency.code ≠ (reexpress d k).currency.code :=
      fun hx => hcode hx.symm
    have hba : e.currency.code ≠ d.currency.code :=
      fun hx => hcode hx.symm
    refine ⟨?_, ?_, ?_, ?_, ?_, ?_, hneg⟩ <;>
      simp [equal, greaterThan, lessThan, Dinero.toJSON, hcode, hra, hrb, hba]

theorem scale_invariance_witness :
    equal intCalculator (reexpress ⟨500, USD, 2⟩ 1) ⟨5000, USD, 3⟩ =
      equal intCalculator ⟨500, USD, 2⟩ ⟨5000, USD, 3⟩ :=
  (scale_invariance ⟨500, USD, 2⟩ ⟨5000, USD, 3⟩ 1 (by decide)
    (fun _ => rfl)).1

/-- C8: the currency-mismatch error carries the single fixed message
`"[Dinero.js] Objects must have the same currency."`, identical for every
calculator backend and every amount/scale combination, and hence
distinguishable from all other failure modes. -/
theorem currency_mismatch_message_is_fixed {α : Type}
    (cal : Calculator α) (d1 d2 : Dinero α)
    (h : d1.currency.code ≠ d2.currency.code) :
    UNEQUAL_CURRENCIES_MESSAGE =
      "[Dinero.js] Objects must have the same currency." ∧
    greaterThan cal d1 d2 =
      Except.error "[Dinero.js] Objects must have the same currency." ∧
    lessThan cal d1 d2 =
      Except.error "[Dinero.js] Objects must have the same currency." := by
  refine ⟨rfl, ?_, ?_⟩ <;>
    simp [greaterThan, lessThan, Dinero.toJSON, h, UNEQUAL_CURRENCIES_MESSAGE]

theorem currency_mismatch_message_is_fixed_witness :
    greaterThan bigCalculator ⟨⟨500⟩, ⟨"USD", ⟨10⟩, ⟨2⟩⟩, ⟨2⟩⟩
        ⟨⟨500⟩, ⟨"EUR", ⟨10⟩, ⟨2⟩⟩, ⟨2⟩⟩ =
      Except.error "[Dinero.js] Objects must have the same currency." :=
  (currency_mismatch_message_is_fixed bigCalculator
    ⟨⟨500⟩, ⟨"USD", ⟨10⟩, ⟨2⟩⟩, ⟨2⟩⟩ ⟨⟨500⟩, ⟨"EUR", ⟨10⟩, ⟨2⟩⟩, ⟨2⟩⟩
    (by decide)).2.1

theorem normalizeScale_map {α : Type} {cal : Calculator α} {φ : α → Int}
    (hrep : Represents cal φ) (d e : Dinero α) :
    (φ (normalizeScale cal d e).1, φ (normalizeScale cal d e).2) =
      normalizeScale intCalculator (mapDinero φ d) (mapDinero φ e) := by
  simp only [normalizeScale, Dinero.toJSON, mapDinero, mapCurrency,
    intCalculator_compare, hrep.compare]
  split_ifs <;>
    simp [hrep.multiply, hrep.power, hrep.subtract, intCalculator]

theorem equal_map {α : Type} {cal : Calculator α} {φ : α → Int}
    (hrep : Represents cal φ) (d e : Dinero α) :
    equal cal d e = equal intCalculator (mapDinero φ d) (mapDinero φ e) := by
  have hc1 : (mapDinero φ d).currency.code = d.currency.code := rfl
  have hc2 : (mapDinero φ e).currency.code = e.currency.code := rfl
  by_cases h : d.currency.code = e.currency.code
  · rw [equal_of_code_eq cal d e h,
      equal_of_code_eq intCalculator (mapDinero φ d) (mapDinero φ e)
        (by rw [hc1, hc2, h])]
    have hN := normalizeScale_map hrep d e
    simp only [← hN, hrep.compare, intCalculator_compare]
  · simp [equal, Dinero.toJSON, hc1, hc2, h]

theorem greaterThan_map {α : Type} {cal : Calculator α} {φ : α → Int}
    (hrep : Represents cal φ) (d e : Dinero α) :
    greaterThan cal d e =
      greaterThan intCalculator (mapDinero φ d) (mapDinero φ e) := by
  have hc1 : (mapDinero φ d).currency.code = d.currency.code := rfl
  have hc2 : (mapDinero φ e).currency.code = e.currency.code := rfl
  by_cases h : d.currency.code = e.currency.code
  · rw [greaterThan_of_code_eq cal d e h,
      greaterThan_of_code_eq intCalculator (mapDinero φ d) (mapDinero φ e)
        (by rw [hc1, hc2, h])]
    have hN := normalizeScale_map hrep d e
    simp only [← hN, hrep.compare, intCalculator_compare]
  · simp [greaterThan, Dinero.toJSON, hc1, hc2, h]

theorem intCalculator_represents : Represents intCalculator id where
  zero := rfl
  compare := fun _ _ => rfl
  multiply := fun _ _ => rfl
  subtract := fun _ _ => rfl
  power := fun _ _ => rfl

theorem bigCalculator_represents : Represents bigCalculator BigAmount.val where
  zero := rfl
  compare := fun _ _ => rfl
  multiply := fun _ _ => rfl
  subtract := fun _ _ => rfl
  power := fun _ _ => rfl

/-- C10: backend equivalence — for corresponding inputs (same integer
amounts, currency codes, and scales), `equal` and `greaterThan` return the
same boolean result and raise under the same conditions across any two
calculator backends that faithfully represent the integers, so the
observable semantics is independent of the calculator flavor (number on
its safe range, bigint, or a Big.js-style wrapper). -/
theorem backend_equivalence {α β : Type} (cal1 : Calculator α)
    (cal2 : Calculator β) (φ1 : α → Int) (φ2 : β → Int)
    (h1 : Represents cal1 φ1) (h2 : Represents cal2 φ2)
    (d1 e1 : Dinero α) (d2 e2 : Dinero β)
    (hd : mapDinero φ1 d1 = mapDinero φ2 d2)
    (he : mapDinero φ1 e1 = mapDinero φ2 e2) :
    equal cal1 d1 e1 = equal cal2 d2 e2 ∧
    greaterThan cal1 d1 e1 = greaterThan cal2 d2 e2 := by
  constructor
  · rw [equal_map h1 d1 e1, equal_map h2 d2 e2, hd, he]
  · rw [greaterThan_map h1 d1 e1, greaterThan_map h2 d2 e2, hd, he]

theorem backend_equivalence_witness :
    equal intCalculator ⟨500, USD, 2⟩ ⟨5000, USD, 3⟩ =
      equal bigCalculator ⟨⟨500⟩, ⟨"USD", ⟨10⟩, ⟨2⟩⟩, ⟨2⟩⟩
        ⟨⟨5000⟩, ⟨"USD", ⟨10⟩, ⟨2⟩⟩, ⟨3⟩⟩ ∧
    greaterThan intCalculator ⟨500, USD, 2⟩ ⟨5000, USD, 3⟩ =
      greaterThan bigCalculator ⟨⟨500⟩, ⟨"USD", ⟨10⟩, ⟨2⟩⟩, ⟨2⟩⟩
        ⟨⟨5000⟩, ⟨"USD", ⟨10⟩, ⟨2⟩⟩, ⟨3⟩⟩ :=
  backend_equivalence intCalculator bigCalculator id BigAmount.val
    intCalculator_represents bigCalculator_represents
    ⟨500, USD, 2⟩ ⟨5000, USD, 3⟩
    ⟨⟨500⟩, ⟨"USD", ⟨10⟩, ⟨2⟩⟩, ⟨2⟩⟩ ⟨⟨5000⟩, ⟨"USD", ⟨10⟩, ⟨2⟩⟩, ⟨3⟩⟩
    rfl rfl

/-- Concrete scenario 4 of §8: `greaterThan({800, USD}, {5000, USD,
scale 3})` normalizes 800 at scale 2 to 8000 at scale 3 and returns
`true`. -/
theorem greaterThan_scenario_normalizes :
    greaterThan intCalculator ⟨800, USD, 2⟩ ⟨5000, USD, 3⟩ =
      Except.ok true := rfl

end DineroJS
